import Mathlib

/-!
Shallow embedding of `src/main.py` (Best Buy Scraper API).

The program drives a headless browser (`fetch_page_source`), parses the
rendered markup with CSS selectors, and exposes two endpoints:
`fetch_categories` (GET /categories) and `fetch_category_products`
(GET /category-products).

The HTML-parsing capability is opaque in the source (BeautifulSoup), so a
page's markup is embedded at the level the program observes it: the list of
elements each top-level CSS selection returns, where an element carries its
raw text and its attribute list.  Attribute access `tag['key']` raises
`KeyError(key)` in Python when the attribute is absent; here it is an
`Except.error` carrying `str(KeyError(key))`, which is the key in single
quotes.  FastAPI's `HTTPException` subclasses `Exception`, so the catch-all
`except Exception` in each handler also catches the deliberately raised
404; the embedding models exceptions with an explicit `PyExc` type and the
handler wrapper reproduces the `except` clause literally.
-/

/-- `BASE_URL` from src/main.py line 30. -/
def BASE_URL : String := "https://www.bestbuy.com"

/-- An HTML element as the program observes it: its (raw, untrimmed)
rendered text and its attribute list in document order. -/
structure Tag where
  text : String
  attrs : List (String × String)
deriving DecidableEq, Repr

/-- Python `str.lower()` on the ASCII range used by the program. -/
def pyLower (s : String) : String := ⟨s.data.map Char.toLower⟩

/-- Python's whitespace for `str.strip()`: space, tab, newline, carriage
return, vertical tab, form feed. -/
def isPySpace (c : Char) : Bool :=
  c == ' ' || c == '\t' || c == '\n' || c == '\r' ||
    c == Char.ofNat 11 || c == Char.ofNat 12

/-- Drops leading Python whitespace from a character list. -/
def dropSpace : List Char → List Char
  | [] => []
  | c :: rest => if isPySpace c then dropSpace rest else c :: rest

/-- Python `str.strip()`: leading and trailing whitespace removed. -/
def pyStrip (s : String) : String :=
  ⟨((dropSpace ((dropSpace s.data).reverse)).reverse)⟩

/-- BeautifulSoup `tag.get_text(strip=True)` for a leaf anchor: the
stripped rendered text. -/
def getTextStrip (t : Tag) : String := pyStrip t.text

/-- BeautifulSoup attribute presence: `tag[key]` succeeds iff the attribute
occurs; first occurrence wins. -/
def getAttr (t : Tag) (key : String) : Option String := List.lookup key t.attrs

/-- `str(KeyError(key))` in Python: the key wrapped in single quotes. -/
def keyErrorStr (key : String) : String := "'" ++ key ++ "'"

/-- One element of `soup.select('li.c-carousel-item')`; `item.find('a')` is
the first descendant anchor, when there is one. -/
structure CarouselItem where
  anchor : Option Tag
deriving DecidableEq, Repr

/-- A category record `{'name': ..., 'url': ...}` (src/main.py line 64). -/
structure Category where
  name : String
  url : String
deriving DecidableEq, Repr

/-- The emitted URL for a scraped relative path (src/main.py line 64):
plain string concatenation `BASE_URL + url`. -/
def category_url (href : String) : String := BASE_URL ++ href

/-- The category-extraction loop of `fetch_categories` (src/main.py lines
58-64): for each carousel item take the first anchor; no anchor skips the
item; `category['href']` raises `KeyError` when the anchor has no href. -/
def extract_categories : List CarouselItem → Except String (List Category)
  | [] => Except.ok []
  | it :: rest =>
    match it.anchor with
    | none => extract_categories rest
    | some a =>
      match getAttr a "href" with
      | none => Except.error (keyErrorStr "href")
      | some href =>
        (extract_categories rest).map
          (fun cats => { name := getTextStrip a, url := category_url href } :: cats)

/-- The category-extraction loop inlined in `fetch_category_products`
(src/main.py lines 87-93), embedded separately from its own source lines. -/
def extract_categories_inline : List CarouselItem → Except String (List Category)
  | [] => Except.ok []
  | it :: rest =>
    match it.anchor with
    | none => extract_categories_inline rest
    | some a =>
      match getAttr a "href" with
      | none => Except.error (keyErrorStr "href")
      | some href =>
        (extract_categories_inline rest).map
          (fun cats => { name := getTextStrip a, url := category_url href } :: cats)

/-- The category record a single carousel item contributes, when it
contributes one: declarative per-item form of the loop body. -/
def category_of (it : CarouselItem) : Option Category :=
  it.anchor.bind fun a =>
    (getAttr a "href").map fun href => { name := getTextStrip a, url := category_url href }

/-- One element of `soup.select('li.sku-item')` with its three sub-selector
results (src/main.py lines 105-107). -/
structure SkuItem where
  name_tag : Option Tag
  image_tag : Option Tag
  price_tag : Option Tag
deriving DecidableEq, Repr

/-- A product record `{'name': ..., 'photo': ..., 'price': ...}`
(src/main.py lines 109-113). -/
structure Product where
  name : String
  photo : String
  price : String
deriving DecidableEq, Repr

/-- The product-extraction loop of `fetch_category_products` (src/main.py
lines 104-113): a record is built only when all three sub-selectors
resolved; `image_tag['src']` raises `KeyError` when the image has no src. -/
def extract_products : List SkuItem → Except String (List Product)
  | [] => Except.ok []
  | it :: rest =>
    match it.name_tag, it.image_tag, it.price_tag with
    | some n, some i, some p =>
      match getAttr i "src" with
      | none => Except.error (keyErrorStr "src")
      | some src =>
        (extract_products rest).map
          (fun ps => { name := pyStrip n.text, photo := src, price := pyStrip p.text } :: ps)
    | _, _, _ => extract_products rest

/-- Whether all three sub-selectors of a SKU item resolved to an element
(the test on src/main.py line 108). -/
def allThreeResolve (it : SkuItem) : Bool :=
  it.name_tag.isSome && it.image_tag.isSome && it.price_tag.isSome

/-- The product record a single SKU item contributes, when it contributes
one: declarative per-item form of the loop body. -/
def product_of (it : SkuItem) : Option Product :=
  match it.name_tag, it.image_tag, it.price_tag with
  | some n, some i, some p =>
    (getAttr i "src").map fun src =>
      { name := pyStrip n.text, photo := src, price := pyStrip p.text }
  | _, _, _ => none

/-- `cat['name'].lower() == category_name.lower()` (src/main.py line 96). -/
def matches_name (cat : Category) (category_name : String) : Bool :=
  pyLower cat.name == pyLower category_name

/-- `next((cat for cat in categories if ...), None)` (src/main.py line 96):
the first category whose name matches case-insensitively. -/
def find_category (categories : List Category) (category_name : String) : Option Category :=
  categories.find? fun cat => matches_name cat category_name

instance {ε α : Type} [DecidableEq ε] [DecidableEq α] : DecidableEq (Except ε α)
  | Except.ok a, Except.ok b =>
    if h : a = b then isTrue (by rw [h]) else isFalse (by intro he; cases he; exact h rfl)
  | Except.ok _, Except.error _ => isFalse (by intro h; cases h)
  | Except.error _, Except.ok _ => isFalse (by intro h; cases h)
  | Except.error e, Except.error f =>
    if h : e = f then isTrue (by rw [h]) else isFalse (by intro he; cases he; exact h rfl)

/-- A Python exception as the handlers can raise it: either an
`HTTPException(status_code, detail)` or any other exception carrying its
`str(e)` rendering. -/
inductive PyExc where
  | http (status : Nat) (detail : String)
  | generic (msg : String)
deriving DecidableEq, Repr

/-- `str(e)`: Starlette's `HTTPException.__str__` renders
`f"{status_code}: {detail}"`; a generic exception renders its message. -/
def strOfExc : PyExc → String
  | PyExc.http status detail => toString status ++ ": " ++ detail
  | PyExc.generic msg => msg

/-- An HTTP response as FastAPI emits it for these handlers: the JSON body
on success, or the status/detail of the `HTTPException` that escaped. -/
inductive Response (α : Type) where
  | ok (value : α)
  | err (status : Nat) (detail : String)
deriving DecidableEq, Repr

/-- The environment a handler invocation runs against: what
`fetch_page_source` + `soup.select` yield for the home page
(`li.c-carousel-item` items) and, per URL, for a category page
(`li.sku-item` items).  `Except.error` is a raised browser/network
exception carrying `str(e)`. -/
structure ScrapeEnv where
  home : Except String (List CarouselItem)
  productPage : String → Except String (List SkuItem)

/-- The body of `fetch_categories`'s `try` block (src/main.py lines 56-65),
as a Python-exception-or-value. -/
def categories_try (home : Except String (List CarouselItem)) :
    Except PyExc (List Category) :=
  match home with
  | Except.error msg => Except.error (PyExc.generic msg)
  | Except.ok items =>
    match extract_categories items with
    | Except.error msg => Except.error (PyExc.generic msg)
    | Except.ok categories => Except.ok categories

/-- The `/categories` handler `fetch_categories` (src/main.py lines 47-67):
its `except Exception` clause re-raises every exception as
`HTTPException(500, str(e))`. -/
def fetch_categories (home : Except String (List CarouselItem)) :
    Response (List Category) :=
  match categories_try home with
  | Except.ok categories => Response.ok categories
  | Except.error e => Response.err 500 (strOfExc e)

/-- The body of `fetch_category_products`'s `try` block (src/main.py lines
84-114), paired with the list of URLs passed to `fetch_page_source`, in
call order (line 85 fetches `BASE_URL`, line 101 fetches the matched
category's URL).  The 404 `HTTPException` of line 98 is raised inside this
block. -/
def category_products_try (env : ScrapeEnv) (category_name : String) :
    Except PyExc (List Product) × List String :=
  match env.home with
  | Except.error msg => (Except.error (PyExc.generic msg), [BASE_URL])
  | Except.ok items =>
    match extract_categories_inline items with
    | Except.error msg => (Except.error (PyExc.generic msg), [BASE_URL])
    | Except.ok categories =>
      match find_category categories category_name with
      | none =>
        (Except.error (PyExc.http 404 ("Category '" ++ category_name ++ "' not found.")),
         [BASE_URL])
      | some cat =>
        match env.productPage cat.url with
        | Except.error msg => (Except.error (PyExc.generic msg), [BASE_URL, cat.url])
        | Except.ok skus =>
          match extract_products skus with
          | Except.error msg => (Except.error (PyExc.generic msg), [BASE_URL, cat.url])
          | Except.ok products => (Except.ok products, [BASE_URL, cat.url])

/-- The `/category-products` handler `fetch_category_products` (src/main.py
lines 70-116): the `except Exception` clause catches every exception of the
`try` block — the deliberately raised `HTTPException(404, ...)` included,
since FastAPI's `HTTPException` subclasses `Exception` — and re-raises it
as `HTTPException(500, str(e))`.  Paired with the fetched-URL list. -/
def fetch_category_products (env : ScrapeEnv) (category_name : String) :
    Response (List Product) × List String :=
  match category_products_try env category_name with
  | (Except.ok products, fetched) => (Response.ok products, fetched)
  | (Except.error e, fetched) => (Response.err 500 (strOfExc e), fetched)

/-- Whether one character list starts with another (Boolean, by plain
character equality). -/
def listIsPfx : List Char → List Char → Bool
  | [], _ => true
  | _ :: _, [] => false
  | a :: as, b :: bs => a == b && listIsPfx as bs

/-- Whether `pat` occurs as a contiguous run of `s`. -/
def listContains (pat : List Char) : List Char → Bool
  | [] => listIsPfx pat []
  | c :: rest => listIsPfx pat (c :: rest) || listContains pat rest

/-- Python's `pat in s` substring test on strings. -/
def pyIn (pat s : String) : Bool := listContains pat.data s.data

/-- One observable browser-automation action of `fetch_page_source`.
`stopPlaywright` is the `async with async_playwright()` context-manager
exit, which stops the driver and tears down every browser and page it
launched; it runs on every exit from the block, exceptional ones
included. -/
inductive BrowserEv where
  | launch
  | newPage
  | goto (url : String)
  | readContent
  | click (selector : String)
  | waitNetworkIdle
  | closeBrowser
  | stopPlaywright
deriving DecidableEq, Repr

/-- The environment one `fetch_page_source` call runs against: whether each
browser primitive succeeds, the content rendered after the initial
navigation, and the content rendered after clicking the US-site link. -/
structure BrowserEnv where
  url : String
  launchOk : Bool
  newPageOk : Bool
  gotoOk : Bool
  read1Ok : Bool
  clickOk : Bool
  waitOk : Bool
  read2Ok : Bool
  content1 : String
  content2 : String

/-- The body of `fetch_page_source`'s `async with` block (src/main.py lines
36-44), returning the result (or the raised exception) and the trace of
browser actions performed.  An action that fails raises before being
performed, so it emits no event; the explicit `browser.close()` of line 43
is only reached on the success path. -/
def fetch_page_source_body (env : BrowserEnv) :
    Except String String × List BrowserEv :=
  if !env.launchOk then (Except.error "browser launch failed", [])
  else if !env.newPageOk then (Except.error "new_page failed", [BrowserEv.launch])
  else if !env.gotoOk then
    (Except.error "goto failed", [BrowserEv.launch, BrowserEv.newPage])
  else if !env.read1Ok then
    (Except.error "content failed",
      [BrowserEv.launch, BrowserEv.newPage, BrowserEv.goto env.url])
  else if pyIn "Choose a country" env.content1 then
    if !env.clickOk then
      (Except.error "click failed",
        [BrowserEv.launch, BrowserEv.newPage, BrowserEv.goto env.url,
         BrowserEv.readContent])
    else if !env.waitOk then
      (Except.error "wait_for_load_state failed",
        [BrowserEv.launch, BrowserEv.newPage, BrowserEv.goto env.url,
         BrowserEv.readContent, BrowserEv.click "a.us-link"])
    else if !env.read2Ok then
      (Except.error "content failed",
        [BrowserEv.launch, BrowserEv.newPage, BrowserEv.goto env.url,
         BrowserEv.readContent, BrowserEv.click "a.us-link",
         BrowserEv.waitNetworkIdle])
    else
      (Except.ok env.content2,
        [BrowserEv.launch, BrowserEv.newPage, BrowserEv.goto env.url,
         BrowserEv.readContent, BrowserEv.click "a.us-link",
         BrowserEv.waitNetworkIdle, BrowserEv.readContent,
         BrowserEv.closeBrowser])
  else if !env.read2Ok then
    (Except.error "content failed",
      [BrowserEv.launch, BrowserEv.newPage, BrowserEv.goto env.url,
       BrowserEv.readContent])
  else
    (Except.ok env.content1,
      [BrowserEv.launch, BrowserEv.newPage, BrowserEv.goto env.url,
       BrowserEv.readContent, BrowserEv.readContent, BrowserEv.closeBrowser])

/-- `fetch_page_source` (src/main.py lines 33-44): the `async with`
context-manager exit runs on every path out of the body, normal or
exceptional, appending the driver teardown to the trace. -/
def fetch_page_source (env : BrowserEnv) :
    Except String String × List BrowserEv :=
  ((fetch_page_source_body env).1,
   (fetch_page_source_body env).2 ++ [BrowserEv.stopPlaywright])

/-- Whether a browser session is open after one more event: `launch` opens
it; `browser.close()` and the driver teardown close it (the teardown closes
pages and browsers alike). -/
def sessionStep (opened : Bool) : BrowserEv → Bool
  | BrowserEv.launch => true
  | BrowserEv.closeBrowser => false
  | BrowserEv.stopPlaywright => false
  | _ => opened

/-- Whether a browser session (browser and its pages) is still open after a
trace of actions. -/
def sessionOpenAfter (tr : List BrowserEv) : Bool := tr.foldl sessionStep false

/-- Counts the click actions of a trace. -/
def countClicks (tr : List BrowserEv) : Nat :=
  tr.countP fun e => match e with | BrowserEv.click _ => true | _ => false

/-- Counts the network-idle waits of a trace. -/
def countWaits (tr : List BrowserEv) : Nat :=
  tr.countP fun e => match e with | BrowserEv.waitNetworkIdle => true | _ => false

/-- Whether the emitted URL is `BASE_URL`, then exactly one separator, then
a remainder not itself starting with a slash: the well-joined shape the
spec's no-double-slash / no-missing-separator sentence describes. -/
def oneSeparatorAfterBase (u : String) : Bool :=
  listIsPfx (BASE_URL.data ++ ['/']) u.data &&
    !(listIsPfx ['/'] (u.data.drop (BASE_URL.data.length + 1)))

/-- Sample homepage anchor: one category named `Laptops` (with padding the
extractor must strip) linking to `/laptops`. -/
def demoAnchor : Tag := { text := "  Laptops ", attrs := [("href", "/laptops")] }

/-- Sample homepage selection: one carousel item carrying `demoAnchor`. -/
def demoHome : List CarouselItem := [{ anchor := some demoAnchor }]

/-- Sample environment: the home page renders `demoHome`; every category
page renders no SKU items. -/
def demoEnv : ScrapeEnv :=
  { home := Except.ok demoHome, productPage := fun _ => Except.ok [] }

/-- A SKU item whose three sub-selectors all resolve but whose image
element carries no `src` attribute. -/
def noSrcSku : SkuItem :=
  { name_tag := some { text := "Widget", attrs := [] },
    image_tag := some { text := "", attrs := [("alt", "widget")] },
    price_tag := some { text := " $9.99 ", attrs := [] } }

/-- A carousel item whose anchor carries no `href` attribute. -/
def noHrefItem : CarouselItem :=
  { anchor := some { text := "Deals", attrs := [("class", "c-link")] } }

/-- Environment whose home page renders the href-less carousel item. -/
def noHrefEnv : ScrapeEnv :=
  { home := Except.ok [noHrefItem], productPage := fun _ => Except.ok [] }

/-- Environment whose matched category page renders the src-less SKU
item. -/
def noSrcEnv : ScrapeEnv :=
  { home := Except.ok demoHome, productPage := fun _ => Except.ok [noSrcSku] }

/-- A SKU item with all three sub-elements and a `src` attribute. -/
def fullSku : SkuItem :=
  { name_tag := some { text := " 55-inch TV ", attrs := [] },
    image_tag := some { text := "", attrs := [("src", "https://img.example/tv.jpg")] },
    price_tag := some { text := " $499.99 ", attrs := [] } }

/-- A SKU item missing its price sub-element. -/
def noPriceSku : SkuItem :=
  { name_tag := some { text := "Cable", attrs := [] },
    image_tag := some { text := "", attrs := [("src", "c.jpg")] },
    price_tag := none }

/-- Sample category-page selection: one complete SKU item and one missing
its price. -/
def demoSkus : List SkuItem := [fullSku, noPriceSku]

/-- The product records `extract_products` emits for `demoSkus`. -/
def demoProducts : List Product :=
  [{ name := "55-inch TV", photo := "https://img.example/tv.jpg", price := "$499.99" }]

/-- Sample environment where the matched category page renders
`demoSkus`. -/
def demoProductsEnv : ScrapeEnv :=
  { home := Except.ok demoHome, productPage := fun _ => Except.ok demoSkus }

/-- A browser environment where every primitive succeeds and the initially
rendered page is the country-selection interstitial. -/
def demoBrowserEnv : BrowserEnv :=
  { url := "https://www.bestbuy.com", launchOk := true, newPageOk := true,
    gotoOk := true, read1Ok := true, clickOk := true, waitOk := true,
    read2Ok := true,
    content1 := "Please Choose a country.",
    content2 := "<html>US home page</html>" }

/-! ## Helper lemmas -/

theorem listIsPfx_append (a b c : List Char) :
    listIsPfx (a ++ b) (a ++ c) = listIsPfx b c := by
  induction a with
  | nil => rfl
  | cons x xs ih => simp [listIsPfx, ih]

theorem drop_length_append (a b : List Char) : (a ++ b).drop a.length = b := by
  induction a with
  | nil => rfl
  | cons x xs ih => simp [ih]

theorem extract_categories_ok_eq (items : List CarouselItem) (cats : List Category)
    (h : extract_categories items = Except.ok cats) :
    cats = items.filterMap category_of := by
  induction items generalizing cats with
  | nil =>
    simp [extract_categories] at h
    simp [h.symm]
  | cons it rest ih =>
    cases ha : it.anchor with
    | none =>
      simp only [extract_categories, ha] at h
      simp [List.filterMap_cons, category_of, ha, ih cats h]
    | some a =>
      cases hh : getAttr a "href" with
      | none => simp only [extract_categories, ha, hh] at h; cases h
      | some href =>
        simp only [extract_categories, ha, hh] at h
        cases hr : extract_categories rest with
        | error m => rw [hr] at h; cases h
        | ok cats' =>
          rw [hr] at h
          cases h
          simp [List.filterMap_cons, category_of, ha, hh, ih cats' hr]

/-- C2 (amended): on any product-page markup on which the extraction
completes without raising — it returns a list — a record is emitted for a
SKU list item iff all three sub-selectors (title anchor, product image,
hero price) resolved; items missing any of the three are silently dropped;
and the emitted list is exactly the in-order per-item extraction, each
record carrying exactly the fields name (stripped text), photo (src
attribute) and price (stripped text), as `product_of` builds them.  The
restriction to non-raising runs is forced by the counterexample: an item
whose three sub-selectors all resolve but whose image has no `src` makes
the extraction raise `KeyError` instead of emitting. -/
theorem extract_products_ok_eq (items : List SkuItem) (ps : List Product)
    (h : extract_products items = Except.ok ps) :
    ps = items.filterMap product_of ∧
      ∀ it ∈ items, (allThreeResolve it = true ↔ (product_of it).isSome = true) := by
  induction items generalizing ps with
  | nil =>
    simp [extract_products] at h
    simp [h.symm]
  | cons it rest ih =>
    cases hn : it.name_tag with
    | none =>
      simp only [extract_products, hn] at h
      obtain ⟨ihe, ihm⟩ := ih ps h
      refine ⟨by simp [List.filterMap_cons, product_of, hn, ihe], ?_⟩
      intro x hx
      rcases List.mem_cons.mp hx with hx | hx
      · subst hx; simp [allThreeResolve, product_of, hn]
      · exact ihm x hx
    | some n =>
      cases hi : it.image_tag with
      | none =>
        simp only [extract_products, hn, hi] at h
        obtain ⟨ihe, ihm⟩ := ih ps h
        refine ⟨by simp [List.filterMap_cons, product_of, hn, hi, ihe], ?_⟩
        intro x hx
        rcases List.mem_cons.mp hx with hx | hx
        · subst hx; simp [allThreeResolve, product_of, hn, hi]
        · exact ihm x hx
      | some i =>
        cases hp : it.price_tag with
        | none =>
          simp only [extract_products, hn, hi, hp] at h
          obtain ⟨ihe, ihm⟩ := ih ps h
          refine ⟨by simp [List.filterMap_cons, product_of, hn, hi, hp, ihe], ?_⟩
          intro x hx
          rcases List.mem_cons.mp hx with hx | hx
          · subst hx; simp [allThreeResolve, product_of, hn, hi, hp]
          · exact ihm x hx
        | some p =>
          cases hs : getAttr i "src" with
          | none => simp only [extract_products, hn, hi, hp, hs] at h; cases h
          | some src =>
            simp only [extract_products, hn, hi, hp, hs] at h
            cases hr : extract_products rest with
            | error m => rw [hr] at h; cases h
            | ok ps' =>
              rw [hr] at h
              cases h
              obtain ⟨ihe, ihm⟩ := ih ps' hr
              refine ⟨by simp [List.filterMap_cons, product_of, hn, hi, hp, hs, ihe], ?_⟩
              intro x hx
              rcases List.mem_cons.mp hx with hx | hx
              · subst hx; simp [allThreeResolve, product_of, hn, hi, hp, hs]
              · exact ihm x hx

theorem find_category_iff (cats : List Category) (nm : String) (c : Category) :
    find_category cats nm = some c ↔
      ∃ pre post, cats = pre ++ c :: post ∧ matches_name c nm = true ∧
        ∀ c2 ∈ pre, matches_name c2 nm = false := by
  induction cats with
  | nil =>
    constructor
    · intro h; simp [find_category] at h
    · rintro ⟨pre, post, hcat, -, -⟩
      cases pre <;> simp at hcat
  | cons a rest ih =>
    cases hm : matches_name a nm with
    | true =>
      rw [find_category, List.find?_cons_of_pos (p := fun cat => matches_name cat nm) rest hm]
      constructor
      · intro h
        cases h
        exact ⟨[], rest, by simp, hm, by simp⟩
      · rintro ⟨pre, post, hcat, hc, hpre⟩
        cases pre with
        | nil =>
          simp at hcat
          simp [hcat.1]
        | cons q qs =>
          simp at hcat
          rw [hcat.1] at hm
          rw [hpre q (by simp)] at hm
          cases hm
    | false =>
      rw [find_category,
        List.find?_cons_of_neg (p := fun cat => matches_name cat nm) rest (by simp [hm])]
      rw [show (List.find? (fun cat => matches_name cat nm) rest = some c) =
            (find_category rest nm = some c) from rfl]
      rw [ih]
      constructor
      · rintro ⟨pre, post, hcat, hc, hpre⟩
        refine ⟨a :: pre, post, by simp [hcat], hc, ?_⟩
        intro c2 hc2
        rcases List.mem_cons.mp hc2 with h | h
        · rw [h]; exact hm
        · exact hpre c2 h
      · rintro ⟨pre, post, hcat, hc, hpre⟩
        cases pre with
        | nil =>
          simp at hcat
          rw [hcat.1] at hm
          rw [hm] at hc
          cases hc
        | cons q qs =>
          simp at hcat
          exact ⟨qs, post, hcat.2, hc, fun c2 h2 => hpre c2 (by simp [h2])⟩

/-! ## Claim theorems -/

/-- C1 (code bug): for a request whose `category_name` has no
case-insensitive match among the extracted categories, the handler raises
`HTTPException(404, ...)` naming the exact category — but that raise stands
inside the `try` block, and the catch-all `except Exception` (FastAPI's
`HTTPException` subclasses `Exception`) catches it and re-raises it as
status 500 with detail `str(e)`.  The client therefore sees HTTP 500, not
the claimed 404.  This theorem evaluates the embedded handler at such a
request. -/
theorem not_found_reported_as_500 :
    find_category [{ name := "Laptops", url := category_url "/laptops" }] "nonexistent"
        = none ∧
      (category_products_try demoEnv "nonexistent").1 =
        Except.error (PyExc.http 404 "Category 'nonexistent' not found.") ∧
      (fetch_category_products demoEnv "nonexistent").1 =
        Response.err 500 "404: Category 'nonexistent' not found." ∧
      (fetch_category_products demoEnv "nonexistent").1 ≠
        Response.err 404 "Category 'nonexistent' not found." := by decide

/-- C2 counterexample: a SKU item whose three sub-selectors all resolve on
which no record is emitted: the image element has no `src`, so
`image_tag['src']` raises and the whole extraction fails instead of
emitting — refuting the unrestricted "emits a record iff all three
sub-selectors resolve". -/
theorem all_selectors_resolve_but_nothing_emitted :
    allThreeResolve noSrcSku = true ∧
      extract_products [noSrcSku] = Except.error "'src'" := by decide

/-- C2 witness: the amended theorem applied to a concrete category page
holding one complete SKU item and one missing its price: exactly the
complete item is emitted, fields stripped. -/
theorem extract_products_ok_eq_witness :
    demoProducts = demoSkus.filterMap product_of ∧
      ∀ it ∈ demoSkus, (allThreeResolve it = true ↔ (product_of it).isSome = true) :=
  extract_products_ok_eq demoSkus demoProducts (by decide)

/-- C3 counterexample: for the scraped relative path "laptops" (no leading
slash) the emitted category URL is the plain concatenation
"https://www.bestbuy.comlaptops" — the separator is missing, refuting the
claim that every emitted URL has exactly one separator whether or not the
path starts with a slash. -/
theorem category_url_missing_separator :
    category_url "laptops" = "https://www.bestbuy.comlaptops" ∧
      oneSeparatorAfterBase (category_url "laptops") = false ∧
      oneSeparatorAfterBase (category_url "/laptops") = true := by decide

/-- C3 (amended): the emitted category URL is the plain concatenation
`BASE_URL ++ href`, and it has exactly one separator between base and path
precisely when the scraped path starts with a slash but not a double
slash; a path without a leading slash yields a missing separator (and one
starting with "//" a double slash), as the counterexample forces. -/
theorem category_url_one_separator_iff (href : String) :
    oneSeparatorAfterBase (category_url href) =
      (listIsPfx ['/'] href.data && !(listIsPfx ['/', '/'] href.data)) := by
  have hdata : (category_url href).data = BASE_URL.data ++ href.data := by
    cases href; rfl
  have hdrop : ∀ t : List Char,
      (BASE_URL.data ++ '/' :: t).drop (BASE_URL.data.length + 1) = t := by
    intro t
    have hsplit : BASE_URL.data ++ '/' :: t = (BASE_URL.data ++ ['/']) ++ t := by simp
    have hlen : (BASE_URL.data ++ ['/']).length = BASE_URL.data.length + 1 := by simp
    rw [hsplit, ← hlen, drop_length_append]
  rw [oneSeparatorAfterBase, hdata]
  cases hd : href.data with
  | nil =>
    simp [listIsPfx_append, listIsPfx]
  | cons c rest =>
    by_cases hc : c = '/'
    · subst hc
      rw [listIsPfx_append, hdrop rest]
      simp [listIsPfx]
    · have hne : ('/' == c) = false := by
        simp [hc]
        intro h
        exact absurd h.symm hc
      rw [listIsPfx_append]
      simp [listIsPfx, hne]

/-- C4: category resolution matches the requested name against each
extracted category case-insensitively and exactly — a category named
"Laptops" matches requests "laptops", "LAPTOPS" and "Laptops" but not
"Laptop" or "Laptops " — and `find_category` returns `some c` precisely
when `c` matches and every category before it in document order does
not: the first match wins. -/
theorem find_category_first_ci_match :
    (matches_name { name := "Laptops", url := "u" } "laptops" = true ∧
      matches_name { name := "Laptops", url := "u" } "LAPTOPS" = true ∧
      matches_name { name := "Laptops", url := "u" } "Laptops" = true ∧
      matches_name { name := "Laptops", url := "u" } "Laptop" = false ∧
      matches_name { name := "Laptops", url := "u" } "Laptops " = false) ∧
    ∀ (cats : List Category) (nm : String) (c : Category),
      find_category cats nm = some c ↔
        ∃ pre post, cats = pre ++ c :: post ∧ matches_name c nm = true ∧
          ∀ c2 ∈ pre, matches_name c2 nm = false :=
  ⟨by decide, find_category_iff⟩

/-- C5: on markup with no carousel items the category extraction returns
the empty list without failing; a carousel item with no anchor is skipped
without error; and every successful extraction is exactly the in-order
per-item map over the matched elements — document order preserved, no
deduplication, no sorting. -/
theorem extract_categories_empty_skip_order :
    extract_categories [] = Except.ok [] ∧
    (∀ rest : List CarouselItem,
        extract_categories ({ anchor := none } :: rest) = extract_categories rest) ∧
    ∀ (items : List CarouselItem) (cats : List Category),
      extract_categories items = Except.ok cats → cats = items.filterMap category_of :=
  ⟨rfl, fun _ => rfl, extract_categories_ok_eq⟩

/-- C6: when the loaded page's content contains the literal substring
"Choose a country", `fetch_page_source` performs exactly one click on the
US-site link followed by one network-idle wait, both before the final
content capture; when the substring is absent it performs zero clicks and
zero waits.  Stated on a run where the browser primitives succeed. -/
theorem fetch_page_source_interstitial_actions (env : BrowserEnv)
    (hl : env.launchOk = true) (hn : env.newPageOk = true) (hg : env.gotoOk = true)
    (h1 : env.read1Ok = true) (hc : env.clickOk = true) (hw : env.waitOk = true)
    (h2 : env.read2Ok = true) :
    (fetch_page_source env).2 =
      [BrowserEv.launch, BrowserEv.newPage, BrowserEv.goto env.url, BrowserEv.readContent]
        ++ (if pyIn "Choose a country" env.content1 then
              [BrowserEv.click "a.us-link", BrowserEv.waitNetworkIdle]
            else [])
        ++ [BrowserEv.readContent, BrowserEv.closeBrowser, BrowserEv.stopPlaywright] ∧
    countClicks (fetch_page_source env).2 =
      (if pyIn "Choose a country" env.content1 then 1 else 0) ∧
    countWaits (fetch_page_source env).2 =
      (if pyIn "Choose a country" env.content1 then 1 else 0) := by
  cases hin : pyIn "Choose a country" env.content1 with
  | true =>
    simp [fetch_page_source, fetch_page_source_body, hl, hn, hg, h1, hc, hw, h2, hin,
      countClicks, countWaits, List.countP_cons, List.countP_nil]
  | false =>
    simp [fetch_page_source, fetch_page_source_body, hl, hn, hg, h1, hc, hw, h2, hin,
      countClicks, countWaits, List.countP_cons, List.countP_nil]

/-- C6 witness: the theorem applied to a concrete all-succeeding browser
run whose initially rendered page is the country interstitial. -/
theorem fetch_page_source_interstitial_actions_witness :
    (fetch_page_source demoBrowserEnv).2 =
      [BrowserEv.launch, BrowserEv.newPage, BrowserEv.goto demoBrowserEnv.url,
        BrowserEv.readContent]
        ++ (if pyIn "Choose a country" demoBrowserEnv.content1 then
              [BrowserEv.click "a.us-link", BrowserEv.waitNetworkIdle]
            else [])
        ++ [BrowserEv.readContent, BrowserEv.closeBrowser, BrowserEv.stopPlaywright] ∧
    countClicks (fetch_page_source demoBrowserEnv).2 =
      (if pyIn "Choose a country" demoBrowserEnv.content1 then 1 else 0) ∧
    countWaits (fetch_page_source demoBrowserEnv).2 =
      (if pyIn "Choose a country" demoBrowserEnv.content1 then 1 else 0) :=
  fetch_page_source_interstitial_actions demoBrowserEnv rfl rfl rfl rfl rfl rfl rfl

/-- C7: every run of `fetch_page_source`, whichever browser primitives
succeed or fail, leaves the session closed when control leaves the body:
the `async with async_playwright()` teardown is appended on every exit
path, so no trace ends with the session still open. -/
theorem fetch_page_source_always_closes (env : BrowserEnv) :
    sessionOpenAfter (fetch_page_source env).2 = false := by
  show List.foldl sessionStep false
    ((fetch_page_source_body env).2 ++ [BrowserEv.stopPlaywright]) = false
  rw [List.foldl_append]
  rfl

/-- C8: a successful invocation of `fetch_category_products` performs
exactly two page fetches — the first against the home `BASE_URL` (to
resolve the category), the second against the matched category's URL —
while an invocation that fails with the not-found condition performs
exactly the one home fetch.  The fetched-URL list is recomputed per
invocation from the environment alone; no cache is consulted. -/
theorem fetch_category_products_two_fetches :
    ∀ (env : ScrapeEnv) (category_name : String),
      (∀ products,
          (fetch_category_products env category_name).1 = Response.ok products →
          ∃ cat, (fetch_category_products env category_name).2 = [BASE_URL, cat.url] ∧
            ∃ items cats, env.home = Except.ok items ∧
              extract_categories_inline items = Except.ok cats ∧
              find_category cats category_name = some cat) ∧
      (∀ detail,
          (category_products_try env category_name).1 =
            Except.error (PyExc.http 404 detail) →
          (category_products_try env category_name).2 = [BASE_URL]) := by
  intro env nm
  constructor
  · intro products hp
    cases hh : env.home with
    | error msg => simp [fetch_category_products, category_products_try, hh] at hp
    | ok items =>
      cases hcx : extract_categories_inline items with
      | error msg =>
        simp [fetch_category_products, category_products_try, hh, hcx] at hp
      | ok cats =>
        cases hf : find_category cats nm with
        | none => simp [fetch_category_products, category_products_try, hh, hcx, hf] at hp
        | some cat =>
          cases hpp : env.productPage cat.url with
          | error msg =>
            simp [fetch_category_products, category_products_try, hh, hcx, hf, hpp] at hp
          | ok skus =>
            cases he : extract_products skus with
            | error msg =>
              simp [fetch_category_products, category_products_try,
                hh, hcx, hf, hpp, he] at hp
            | ok ps =>
              exact ⟨cat,
                by simp [fetch_category_products, category_products_try,
                    hh, hcx, hf, hpp, he],
                items, cats, rfl, hcx, hf⟩
  · intro detail hd
    cases hh : env.home with
    | error msg => simp [category_products_try, hh] at hd
    | ok items =>
      cases hcx : extract_categories_inline items with
      | error msg => simp [category_products_try, hh, hcx] at hd
      | ok cats =>
        cases hf : find_category cats nm with
        | none => simp [category_products_try, hh, hcx, hf]
        | some cat =>
          cases hpp : env.productPage cat.url with
          | error msg => simp [category_products_try, hh, hcx, hf, hpp] at hd
          | ok skus =>
            cases he : extract_products skus with
            | error msg => simp [category_products_try, hh, hcx, hf, hpp, he] at hd
            | ok ps => simp [category_products_try, hh, hcx, hf, hpp, he] at hd

/-- C9: the category-extraction logic inlined in `fetch_category_products`
(select carousel items, first anchor, stripped text, `BASE_URL + href`)
produces exactly the same result as the extraction of `fetch_categories`
on every markup — errors included. -/
theorem inline_extraction_agrees (items : List CarouselItem) :
    extract_categories_inline items = extract_categories items := by
  induction items with
  | nil => rfl
  | cons it rest ih =>
    cases ha : it.anchor with
    | none =>
      simp only [extract_categories_inline, extract_categories, ha]
      exact ih
    | some a =>
      cases hh : getAttr a "href" with
      | none => simp only [extract_categories_inline, extract_categories, ha, hh]
      | some href => simp only [extract_categories_inline, extract_categories, ha, hh, ih]

/-- C10: markup where a selected sub-element exists but lacks the expected
attribute makes extraction raise instead of skipping the item, and the
handler surfaces the `KeyError` as an HTTP 500: a carousel anchor with no
`href` on the categories path, and a SKU product image with no `src` on
the products path. -/
theorem missing_attribute_raises_500 :
    (noHrefItem.anchor.isSome = true ∧
      extract_categories [noHrefItem] = Except.error "'href'" ∧
      fetch_categories (Except.ok [noHrefItem]) = Response.err 500 "'href'" ∧
      (fetch_category_products noHrefEnv "Deals").1 = Response.err 500 "'href'") ∧
    (allThreeResolve noSrcSku = true ∧
      extract_products [noSrcSku] = Except.error "'src'" ∧
      (fetch_category_products noSrcEnv "laptops").1 = Response.err 500 "'src'") := by
  decide
